import Mathlib

/-!
Verification of the psychiatry hospital web application
(`venkat.py`, `radiology.py`, `labs.py`) against its natural-language
specification.  The Python code is shallowly embedded: each route handler
becomes a pure Lean function from its request inputs and the current state
(database tables / in-memory queues / JSON history file, all modelled as
lists) to the successor state and an explicit response value.  External
HTTP calls, thread spawns and raised exceptions are made explicit: handlers
take "outcome" parameters describing the result of each external call, and
return effect logs recording the threads they spawn.
-/

namespace Hospital

/-! ## Python string primitives

Helpers mirroring the Python string operations used by the code:
`str.replace` (left-to-right, non-overlapping replacement of every
occurrence), `int(s)` (whitespace-trimmed optional sign followed by digits;
the rarely-used underscore separators of Python numeric literals are not
modelled), `float(s)` (modelled exactly over decimal strings as a rational;
IEEE-754 rounding is abstracted away), truthiness of an optional form field
(`None` and the empty string are falsy), and the format `f"UHID{n:03}"`. -/

/-- Worker for Python `str.replace`: scan left to right; `skip` counts
characters still to be consumed by the occurrence just replaced (so the
replacement is non-overlapping, as in Python). -/
def pyReplaceGo (pat repl : List Char) : Nat → List Char → List Char
  | _, [] => []
  | Nat.succ k, _ :: rest => pyReplaceGo pat repl k rest
  | 0, c :: rest =>
    if pat.isPrefixOf (c :: rest) ∧ pat ≠ [] then
      repl ++ pyReplaceGo pat repl (pat.length - 1) rest
    else
      c :: pyReplaceGo pat repl 0 rest

/-- Python `str.replace`: replace every non-overlapping occurrence of `pat`
(non-empty) in `l`, scanning left to right. -/
def pyReplaceList (pat repl l : List Char) : List Char :=
  pyReplaceGo pat repl 0 l

/-- Python `s.replace(pat, repl)` on strings. -/
def pyReplace (s pat repl : String) : String :=
  ⟨pyReplaceList pat.toList repl.toList s.toList⟩

/-- Numeric value of a list of decimal digit characters. -/
def digitsVal : List Char → Nat
  | [] => 0
  | c :: rest => digitsVal rest + c.toNat % 48 * 10 ^ rest.length

/-- Strip whitespace from both ends (Python's implicit strip in numeric
conversions). -/
def trimWs (l : List Char) : List Char :=
  (l.dropWhile (·.isWhitespace)).reverse.dropWhile (·.isWhitespace) |>.reverse

/-- Signed digit run after trimming, for Python `int(s)`. -/
def pySignedDigits : List Char → Option Int
  | [] => none
  | c :: ds =>
    if c = '-' then
      if ds ≠ [] ∧ ds.all (·.isDigit) then some (-(digitsVal ds : Int)) else none
    else if c = '+' then
      if ds ≠ [] ∧ ds.all (·.isDigit) then some (digitsVal ds : Int) else none
    else
      if (c :: ds).all (·.isDigit) then some (digitsVal (c :: ds) : Int) else none

/-- Python `int(s)`: strip surrounding whitespace, allow one optional sign,
then require a non-empty run of decimal digits. -/
def pyIntCore (l : List Char) : Option Int :=
  pySignedDigits (trimWs l)

/-- Python `int(s)` on strings. -/
def pyInt (s : String) : Option Int :=
  pyIntCore s.toList

/-- Python `float(s)` over plain decimal strings `[+|-]digits[.digits]` or
`[+|-].digits`, as an exact rational.  Exponent forms, `inf`/`nan` and
underscore separators are not modelled; IEEE-754 rounding is abstracted. -/
def pyFloatCore (l : List Char) : Option Rat :=
  let l := trimWs l
  let signed : List Char → Option Rat := fun l =>
    let intPart := l.takeWhile (·.isDigit)
    let rest := l.dropWhile (·.isDigit)
    match rest with
    | [] => if intPart ≠ [] then some (digitsVal intPart : Rat) else none
    | '.' :: frac =>
      if frac.all (·.isDigit) ∧ (intPart ≠ [] ∨ frac ≠ []) then
        some ((digitsVal intPart : Rat) + (digitsVal frac : Rat) / (10 ^ frac.length : Rat))
      else none
    | _ => none
  match l with
  | '-' :: rest => (signed rest).map (- ·)
  | '+' :: rest => signed rest
  | rest => signed rest

/-- Python `float(s)` on strings. -/
def pyFloat (s : String) : Option Rat :=
  pyFloatCore s.toList

/-- Left-pad a string with `'0'` to width `w` (helper for `zfill`-style
formatting). -/
def padZero (w : Nat) (s : String) : String :=
  ⟨List.replicate (w - s.length) '0' ++ s.toList⟩

/-- Python `f"{n:03}"`: zero-pad to total width 3, the sign counting toward
the width. -/
def pyFormat03 (n : Int) : String :=
  if n < 0 then "-" ++ padZero 2 (toString n.natAbs) else padZero 3 (toString n.natAbs)

/-- Truthiness of an optional string form field: `None` and `""` are falsy
(the Python truthiness used by `all([...])` and `if field:` checks). -/
def truthy : Option String → Bool
  | none => false
  | some s => s ≠ ""

/-- Python `str.lower()` over the ASCII range (the department names this
code compares are ASCII). -/
def pyLowerChar (c : Char) : Char :=
  if 'A' ≤ c ∧ c ≤ 'Z' then Char.ofNat (c.toNat + 32) else c

/-- Python `s.lower()` on strings (ASCII). -/
def pyLower (s : String) : String :=
  ⟨s.toList.map pyLowerChar⟩

/-- Update the first element of `l` satisfying `p` by `f`; mirrors Python's
`next((r for r in L if p(r)), None)` followed by in-place mutation of the
found record. -/
def updateFirst (p : α → Bool) (f : α → α) : List α → List α
  | [] => []
  | x :: xs => if p x then f x :: xs else x :: updateFirst p f xs

/-! ## Radiology blueprint (`radiology.py`)

The in-memory request queue `REQUEST_QUEUE` is a list of request records.
`radiology_submit` (lines 498-542) validates the four form fields, inserts
a new `Pending` record at the front of the queue and spawns one worker
thread; `process_scan_request_worker` (lines 60-104) posts to the external
create endpoint, downloads the scan and updates the record's status.
The `uuid.uuid4()` id and `datetime.now()` timestamp are passed in as
parameters; the results of the two external HTTP interactions (order
creation including `raise_for_status`/`.json()` and the download performed
by `download_scan`, which catches its own exceptions and returns `None` on
any failure) are passed in as outcome parameters. -/

/-- One entry of `REQUEST_QUEUE` (the dict built at radiology.py:511-521). -/
structure ScanRequest where
  id : String
  uhid : String
  department : String
  scan_type : String
  body_part : String
  status : String
  filename : Option String
  error : Option String
  timestamp : String
deriving DecidableEq, Repr

/-- `DEFAULT_HOST` of radiology.py. -/
def DEFAULT_HOST : String := "http://127.0.0.1:5000"

/-- Outcome of the scan-creation call (`requests.post` + `raise_for_status`
+ `resp.json().get('scan_id')`): a `requests` exception, some other
exception (e.g. JSON decoding), or success with the optional scan id. -/
inductive CreateOutcome where
  | reqExn (msg : String)
  | otherExn (msg : String)
  | ok (scanId : Option String)
deriving DecidableEq, Repr

/-- `process_scan_request_worker` (radiology.py:60-104).  `download` is the
return value of `download_scan` (the filename, or `None` on HTTP failure or
exception — `download_scan` never raises).  The worker looks up the request
by id and, if present, updates its status fields; on the exception paths the
`filename` field is left untouched. -/
def process_scan_request_worker (request_id : String) (create : CreateOutcome)
    (download : Option String) (queue : List ScanRequest) : List ScanRequest :=
  if queue.any (fun r => r.id == request_id) then
    updateFirst (fun r => r.id == request_id)
      (fun req =>
        match create with
        | .ok _ =>
          { req with
            status := if download.isSome then "Completed" else "Failed"
            filename := download
            error := if download.isSome then none else some "Download failed" }
        | .reqExn e => { req with status := "Failed", error := some e }
        | .otherExn e =>
          { req with status := "Failed", error := some ("An unexpected error occurred: " ++ e) })
      queue
  else queue

/-- Response of the radiology submission POST route. -/
inductive SubmitResp where
  | missingFormData                                        -- ("Missing form data", 400)
  | redirectSubmit (createdId uhid scanType : String)      -- redirect back to the form
deriving DecidableEq, Repr

/-- Arguments of a `threading.Thread` started for a scan request
(radiology.py:526-538). -/
structure SpawnedWorker where
  request_id : String
  host : String
  department : String
  uhid : String
  scan_type : String
  body_part : String
deriving DecidableEq, Repr

/-- POST branch of `radiology_submit` (radiology.py:501-540): validate the
four form fields (`None` or empty string fails the `all([...])` check),
otherwise insert the new `Pending` record at the front of `REQUEST_QUEUE`
and start one worker thread.  Returns the response, the new queue and the
list of threads spawned. -/
def radiology_submit (uhid department scan_type body_part : Option String)
    (newId now : String) (queue : List ScanRequest) :
    SubmitResp × List ScanRequest × List SpawnedWorker :=
  if truthy uhid ∧ truthy department ∧ truthy scan_type ∧ truthy body_part then
    let u := uhid.getD ""
    let d := department.getD ""
    let st := scan_type.getD ""
    let bp := body_part.getD ""
    let newRequest : ScanRequest :=
      { id := newId, uhid := u, department := d, scan_type := st, body_part := bp
        status := "Pending", filename := none, error := none, timestamp := now }
    (.redirectSubmit newId u st, newRequest :: queue,
      [{ request_id := newId, host := DEFAULT_HOST, department := d,
         uhid := u, scan_type := st, body_part := bp }])
  else
    (.missingFormData, queue, [])

/-! ## Labs blueprint (`labs.py`)

Lab orders are kept in a JSON file `downloads/order_history.json`
(`load_history`/`save_history`, labs.py:30-52), modelled as a list of
order records.  The submission route `index` (labs.py:617-682) handles a
POST synchronously through a local inner `perform_test_request`
(labs.py:637-652) that shadows the module-level function of the same name:
it draws a fresh hex token, appends the new order to the
department-filtered history and saves that list back to the file.  The
handlers below return an effect log (`threadsSpawned`, `httpCalls`) so
that the absence of thread spawns and of synchronous external calls in a
code path is a provable statement; `radiology_submit` above shows a spawn
being recorded by the same discipline. -/

/-- One entry of the order-history file (the dict built at
labs.py:640-649; `priority`, `specimen` and `remarks` come from optional
form fields). -/
structure LabOrder where
  orderId : String
  department : String
  uhid : String
  tests : List String
  priority : Option String
  specimen : Option String
  remarks : Option String
  createdAt : String
deriving DecidableEq, Repr

/-- `load_history(department)` (labs.py:30-44): read the file, filtered by
exact department match when one is given. -/
def load_history (department : Option String) (file : List LabOrder) : List LabOrder :=
  match department with
  | none => file
  | some d => file.filter (fun o => o.department == d)

/-- Effect log of a request handler: worker threads it started and
synchronous external HTTP calls it made. -/
structure LabsEffects where
  threadsSpawned : List String
  httpCalls : List String
deriving DecidableEq, Repr

/-- Result of the labs `index` POST: the history-file content after the
request, the new order id (on success), the error message (on validation
failure), the status map rendered for the page, and the effect log. -/
structure LabsIndexResult where
  file : List LabOrder
  orderId : Option String
  error : Option String
  statuses : List (String × String)
  effects : LabsEffects
deriving DecidableEq, Repr

/-- POST branch of the labs `index` route (labs.py:624-682).  The session
department defaults to `"psychiatry"` (line 619-620); `token` stands for
`secrets.token_hex(4)` and `now` for the formatted `datetime.now()`.  The
route validates `all([department, uhid, selected_tests])`, then runs the
inner `perform_test_request` (labs.py:637-652): append the new order to the
department-filtered history and overwrite the file with it.  No thread is
started and no HTTP request is made on this path; the page's status map
assigns `"unknown"` to every order of the department (line 662). -/
def labs_index_post (sessionDept : Option String) (uhid : Option String)
    (priority specimen remarks : Option String) (tests : List String)
    (token now : String) (file : List LabOrder) : LabsIndexResult :=
  let department := sessionDept.getD "psychiatry"
  let afterPost : List LabOrder × Option String × Option String :=
    if truthy (some department) ∧ truthy uhid ∧ tests ≠ [] then
      let history := load_history (some department) file
      let newOrder : LabOrder :=
        { orderId := token, department := department, uhid := uhid.getD ""
          tests := tests, priority := priority, specimen := specimen
          remarks := remarks, createdAt := now }
      (history ++ [newOrder], some token, none)
    else
      (file, none, some "UHID and at least one Test are required.")
  let hist := load_history (some department) afterPost.1
  { file := afterPost.1, orderId := afterPost.2.1, error := afterPost.2.2
    statuses := hist.map (fun h => (h.orderId, "unknown"))
    effects := { threadsSpawned := [], httpCalls := [] } }

/-- Outcome of the external results fetch in `view_results`
(labs.py:786-881). -/
inductive FetchOutcome where
  | ok (data : String)
  | httpError (status : Nat)
  | exn (msg : String)
deriving DecidableEq, Repr

/-- Response of `view_results`. -/
inductive ViewResultsResp where
  | redirectLogin
  | notFoundPage (oid : String)         -- 404
  | forbiddenPage                       -- 403
  | failedLoadPage (status : Nat)       -- external fetch not ok, echoed status
  | resultsPage (data : String)         -- rendered results
  | exceptionPage (msg : String)        -- rendered exception text
deriving DecidableEq, Repr

/-- `view_results` (labs.py:726-881): require a session department, look up
the first history entry with the requested order id, 404 when absent, 403
when its department differs from the session department (case-insensitive
compare via `.lower()`, modelled by `pyLower` over the ASCII
department names), and only then fetch and render the results. -/
def view_results (sessionDept : Option String) (oid : String)
    (fetch : FetchOutcome) (file : List LabOrder) : ViewResultsResp :=
  match sessionDept with
  | none => .redirectLogin
  | some d =>
    match load_history none file |>.find? (fun o => o.orderId == oid) with
    | none => .notFoundPage oid
    | some o =>
      if pyLower o.department == pyLower d then
        match fetch with
        | .ok data => .resultsPage data
        | .httpError status => .failedLoadPage status
        | .exn msg => .exceptionPage msg
      else .forbiddenPage

/-- Response of `serve_report`. -/
inductive ServeReportResp where
  | redirectLogin
  | notFoundPage (oid : String)         -- 404
  | forbiddenPage                       -- 403
  | servedFile (filename : String)      -- writes and serves order_<id>.txt
deriving DecidableEq, Repr

/-- `serve_report` (labs.py:883-963): the same gate as `view_results` on the
path parameter (which is the order id), then write and serve the report
file `order_<id>.txt`. -/
def serve_report (sessionDept : Option String) (oid : String)
    (file : List LabOrder) : ServeReportResp :=
  match sessionDept with
  | none => .redirectLogin
  | some d =>
    match load_history none file |>.find? (fun o => o.orderId == oid) with
    | none => .notFoundPage oid
    | some o =>
      if pyLower o.department == pyLower d then
        .servedFile ("order_" ++ oid ++ ".txt")
      else .forbiddenPage

/-! ## Main application (`venkat.py`)

The relational store is modelled as four lists of rows in insertion order.
Ids are assigned by SQLite autoincrement; since no route ever deletes a
row, autoincrement coincides with `length + 1` and
`order_by(id.desc()).first()` with the last list element.  Dates
(`visit_date`, parsed from `YYYY-MM-DD` query strings) and timestamps
(`created_at` / `registration_date`) are abstracted to `Nat`; route
parameters carry the already-parsed date, `none` when the query argument is
absent.  The JSON payload dicts assembled field-by-field from the forms
(venkat.py:604-716, 782-824, 919-958) are pure data marshalling with no
effect on control flow, and are modelled as opaque `String` blobs passed
in pre-built.  `db.session.add` + `db.session.commit` either appends the
row or fails with an `IntegrityError` when a declared constraint
(`unique=True` on `Patient.uhid`, `nullable=False` on `Patient.name` and
`Patient.uhid`) is violated; on failure nothing is persisted.  Exceptions
inside the `try` bodies of `treatment_form` / `lab_reports_form` /
`save_prescription` are injected through a `fail` parameter: the database
mutates only at `commit`, so `db.session.rollback()` amounts to returning
the unchanged state. -/

/-- A row of the `Patient` table (venkat.py:198-231).  The route stores the
raw form strings into the vitals columns; `age` passes through an integer
conversion (`type=int` in `patient_entry`, SQLite integer-column coercion
of the raw string in `patient_registration`). -/
structure PatientRow where
  id : Nat
  uhid : String
  name : Option String
  age : Option Int
  gender : Option String
  mobile_no : Option String
  email : Option String
  bp_sys : Option String
  bp_dia : Option String
  sugar : Option String
  height : Option String
  weight : Option String
  temperature : Option String
  abnormal_bp : Bool
  abnormal_sugar : Bool
  abnormal_temp : Bool
  registration_date : Nat
deriving DecidableEq, Repr

/-- The JSON blobs of an `Assessment` row (venkat.py:233-251), assembled at
venkat.py:604-716; opaque to the properties proved here. -/
structure AssessPayload where
  demographics : String
  chief_complaints : String
  history : String
  personal_history : String
  premorbid_personality : String
  physical_exam : String
  mental_status : String
  cognitive_functions : String
  previous_history : String
  scales : String
  review_patient : Option String
  review_patient_details : Option String
  referral : Option String
  referral_details : Option String
deriving DecidableEq, Repr

/-- A row of the `Assessment` table. -/
structure AssessmentRow where
  id : Nat
  uhid : String
  visit_date : Nat
  payload : AssessPayload
  created_at : Nat
deriving DecidableEq, Repr

/-- The JSON blobs of a `Treatment` row, assembled at venkat.py:782-824. -/
structure TreatPayload where
  diagnosis : String
  psychotherapy : String
  medications : String
deriving DecidableEq, Repr

/-- A row of the `Treatment` table (venkat.py:253-260). -/
structure TreatmentRow where
  id : Nat
  uhid : String
  visit_date : Nat
  diagnosis : String
  psychotherapy : String
  medications : String
  created_at : Nat
deriving DecidableEq, Repr

/-- The JSON blobs of a `LabReport` row, assembled at venkat.py:919-958
(including the saved upload filenames). -/
structure LabPayload where
  tests : String
  scans : String
deriving DecidableEq, Repr

/-- A row of the `LabReport` table (venkat.py:262-269); `uploaded_files` is
never written by any route. -/
structure LabReportRow where
  id : Nat
  uhid : String
  visit_date : Nat
  tests : String
  scans : String
  uploaded_files : Option String
  created_at : Nat
deriving DecidableEq, Repr

/-- The four relational tables the forms write to. -/
structure Db where
  patients : List PatientRow
  assessments : List AssessmentRow
  treatments : List TreatmentRow
  labReports : List LabReportRow
deriving DecidableEq, Repr

/-- The empty database. -/
def Db.empty : Db := ⟨[], [], [], []⟩

/-- `generate_uhid` (venkat.py:326-341): take the patient with the highest
id (`order_by(Patient.id.desc()).first()`, i.e. the last inserted row),
strip every occurrence of `"UHID"` from its uhid (`str.replace`), parse the
remainder with `int(...)` and emit `f"UHID{new_id:03}"`; fall back to
`"UHID001"` on a `ValueError` or when no patient exists. -/
def generate_uhid (ps : List PatientRow) : String :=
  match ps.getLast? with
  | some p =>
    match pyInt (pyReplace p.uhid "UHID" "") with
    | some lastId => "UHID" ++ pyFormat03 (lastId + 1)
    | none => "UHID001"
  | none => "UHID001"

/-- The form fields read by `patient_entry` (venkat.py:455-467). -/
structure EntryForm where
  patient_name : Option String
  age : Option String
  gender : Option String
  mobile_no : Option String
  email : Option String
  bp_sys : Option String
  bp_dia : Option String
  sugar : Option String
  height : Option String
  weight : Option String
  temp : Option String
deriving DecidableEq, Repr

/-- Blood-pressure check of the vitals `try` block (venkat.py:480-485):
only attempted when both fields are truthy; `none` models the
`ValueError` of a failed `int(...)`. -/
def bpFlag (f : EntryForm) : Option Bool :=
  if truthy f.bp_sys ∧ truthy f.bp_dia then
    match pyInt (f.bp_sys.getD ""), pyInt (f.bp_dia.getD "") with
    | some s, some d => some (decide (s > 140 ∨ d > 90))
    | _, _ => none
  else some false

/-- Blood-sugar check (venkat.py:487-491). -/
def sugarFlag (f : EntryForm) : Option Bool :=
  if truthy f.sugar then
    match pyInt (f.sugar.getD "") with
    | some v => some (decide (v < 70 ∨ v > 180))
    | none => none
  else some false

/-- Temperature check (venkat.py:493-497), via `float(...)`. -/
def tempFlag (f : EntryForm) : Option Bool :=
  if truthy f.temp then
    match pyFloat (f.temp.getD "") with
    | some v => some (decide (v < 97 ∨ v > 99))
    | none => none
  else some false

/-- The vitals `try` block of `patient_entry` (venkat.py:479-502): compute
the three abnormal flags in order, `none` when a conversion raises
`ValueError`. -/
def vitalsFlags (f : EntryForm) : Option (Bool × Bool × Bool) := do
  let abnormalBp ← bpFlag f
  let abnormalSugar ← sugarFlag f
  let abnormalTemp ← tempFlag f
  pure (abnormalBp, abnormalSugar, abnormalTemp)

/-- Outcome of the `patient_entry` POST. -/
inductive EntryOutcome where
  | invalidVitals              -- flash 'Invalid vital sign data provided.' + redirect
  | integrityError             -- commit rejected (duplicate uhid / NULL name)
  | ok (uhid : String)         -- flash success + redirect to the dashboard
deriving DecidableEq, Repr

/-- POST branch of `patient_entry` (venkat.py:453-532): generate the next
uhid, compute the abnormal flags (redirecting on invalid vitals), build the
row from the raw form strings and commit it. -/
def patient_entry (f : EntryForm) (now : Nat) (db : Db) : Db × EntryOutcome :=
  let uhid := generate_uhid db.patients
  match vitalsFlags f with
  | none => (db, .invalidVitals)
  | some flags =>
    if f.patient_name = none ∨ db.patients.any (fun p => p.uhid == uhid) then
      (db, .integrityError)
    else
      let row : PatientRow :=
        { id := db.patients.length + 1, uhid := uhid, name := f.patient_name
          age := f.age.bind pyInt, gender := f.gender, mobile_no := f.mobile_no
          email := f.email, bp_sys := f.bp_sys, bp_dia := f.bp_dia
          sugar := f.sugar, height := f.height, weight := f.weight
          temperature := f.temp, abnormal_bp := flags.1
          abnormal_sugar := flags.2.1, abnormal_temp := flags.2.2
          registration_date := now }
      ({ db with patients := db.patients ++ [row] }, .ok uhid)

/-- Outcome of the `patient_registration` POST. -/
inductive RegOutcome where
  | duplicateUhid              -- flash 'UHID already exists...' + redirect
  | integrityError             -- commit rejected (NULL uhid or NULL name)
  | ok
deriving DecidableEq, Repr

/-- POST branch of `patient_registration` (venkat.py:540-553): refuse a
submitted uhid that already exists, otherwise insert the new patient (the
remaining columns keep their defaults). -/
def patient_registration (uhid name age gender : Option String) (now : Nat)
    (db : Db) : Db × RegOutcome :=
  match uhid with
  | none => (db, .integrityError)
  | some u =>
    if db.patients.any (fun p => p.uhid == u) then (db, .duplicateUhid)
    else
      match name with
      | none => (db, .integrityError)
      | some n =>
        let row : PatientRow :=
          { id := db.patients.length + 1, uhid := u, name := some n
            age := age.bind pyInt, gender := gender, mobile_no := none
            email := none, bp_sys := none, bp_dia := none, sugar := none
            height := none, weight := none, temperature := none
            abnormal_bp := false, abnormal_sugar := false
            abnormal_temp := false, registration_date := now }
        ({ db with patients := db.patients ++ [row] }, .ok)

/-- Response of the assessment-form POST. -/
inductive AssessResp where
  | redirectLogin
  | notFound404
  | savedRedirect              -- flash + redirect to the treatment form
deriving DecidableEq, Repr

/-- POST branch of `assessment_form` (venkat.py:583-761): require a login,
look the patient up (`first_or_404`), use the parsed `visiting_date` query
argument (today when absent), then update the existing assessment row for
`(uhid, visit_date)` in place or insert a new one carrying that date. -/
def assessment_form (loggedIn : Bool) (uhid : String) (visiting : Option Nat)
    (today now : Nat) (p : AssessPayload) (db : Db) : Db × AssessResp :=
  if ¬ loggedIn then (db, .redirectLogin)
  else if ¬ db.patients.any (fun q => q.uhid == uhid) then (db, .notFound404)
  else
    let visitingDate := visiting.getD today
    let isHit := fun (a : AssessmentRow) => a.uhid == uhid && a.visit_date == visitingDate
    if (db.assessments.find? isHit).isSome then
      ({ db with assessments := updateFirst isHit (fun a => { a with payload := p }) db.assessments },
        .savedRedirect)
    else
      let row : AssessmentRow :=
        { id := db.assessments.length + 1, uhid := uhid
          visit_date := visitingDate, payload := p, created_at := now }
      ({ db with assessments := db.assessments ++ [row] }, .savedRedirect)

/-- Response of the treatment-form POST. -/
inductive TreatResp where
  | redirectLogin
  | notFound404
  | savedOk                    -- JSON success message, 200
  | saveFailed (msg : String)  -- JSON error message, 500, after rollback
deriving DecidableEq, Repr

/-- POST branch of `treatment_form` (venkat.py:771-846).  Gates, then the
`try` body: look up the treatment for `(uhid, visiting_date)` and update it
in place, or insert a new row — the constructor call at venkat.py:832-837
passes no `visit_date`, so the inserted row carries the column default
`date.today` instead of the requested visiting date.  An exception
(injected via `fail`) rolls the session back and surfaces as a generic
JSON 500 body. -/
def treatment_form (loggedIn : Bool) (uhid : String) (visiting : Option Nat)
    (today now : Nat) (p : TreatPayload) (fail : Option String) (db : Db) :
    Db × TreatResp :=
  if ¬ loggedIn then (db, .redirectLogin)
  else if ¬ db.patients.any (fun q => q.uhid == uhid) then (db, .notFound404)
  else
    match fail with
    | some e => (db, .saveFailed ("Failed to save data. Please try again. Error: " ++ e))
    | none =>
      let visitingDate := visiting.getD today
      let isHit := fun (t : TreatmentRow) => t.uhid == uhid && t.visit_date == visitingDate
      if (db.treatments.find? isHit).isSome then
        let upd := fun (t : TreatmentRow) =>
          { t with diagnosis := p.diagnosis, psychotherapy := p.psychotherapy
                   medications := p.medications }
        ({ db with treatments := updateFirst isHit upd db.treatments }, .savedOk)
      else
        let row : TreatmentRow :=
          { id := db.treatments.length + 1, uhid := uhid
            visit_date := today   -- column default: visit_date is not passed
            diagnosis := p.diagnosis, psychotherapy := p.psychotherapy
            medications := p.medications, created_at := now }
        ({ db with treatments := db.treatments ++ [row] }, .savedOk)

/-- Response of the lab-reports-form POST. -/
inductive LabResp where
  | redirectLogin
  | notFound404
  | savedRedirect              -- flash success + redirect to the summary
  | failedRedirect (msg : String) -- flash error + redirect back, after rollback
deriving DecidableEq, Repr

/-- POST branch of `lab_reports_form` (venkat.py:906-979).  Gates, then the
`try` body: look up the report for `(uhid, visiting_date)` (venkat.py:959),
update its `tests`/`scans` in place or insert a new row carrying that
date.  An exception (injected via `fail`) rolls the session back, flashes a
generic message and redirects. -/
def lab_reports_form (loggedIn : Bool) (uhid : String) (visiting : Option Nat)
    (today now : Nat) (p : LabPayload) (fail : Option String) (db : Db) :
    Db × LabResp :=
  if ¬ loggedIn then (db, .redirectLogin)
  else if ¬ db.patients.any (fun q => q.uhid == uhid) then (db, .notFound404)
  else
    match fail with
    | some e => (db, .failedRedirect ("Failed to save lab reports. Please try again. Error: " ++ e))
    | none =>
      let visitingDate := visiting.getD today
      let isHit := fun (r : LabReportRow) => r.uhid == uhid && r.visit_date == visitingDate
      if (db.labReports.find? isHit).isSome then
        let upd := fun (r : LabReportRow) => { r with tests := p.tests, scans := p.scans }
        ({ db with labReports := updateFirst isHit upd db.labReports }, .savedRedirect)
      else
        let row : LabReportRow :=
          { id := db.labReports.length + 1, uhid := uhid
            visit_date := visitingDate, tests := p.tests, scans := p.scans
            uploaded_files := none, created_at := now }
        ({ db with labReports := db.labReports ++ [row] }, .savedRedirect)

/-- Response of `save_prescription`. -/
inductive SavePresResp where
  | redirectLogin
  | errorNoDate                -- strptime raises when the form date is absent
  | notFound404
  | doneRedirect (flashOk : Bool) -- redirect to history; flag: commit succeeded
deriving DecidableEq, Repr

/-- `save_prescription` (venkat.py:1006-1039): require a login and a
parseable form date, look the patient up, and if no treatment exists for
`(uhid, visiting_date)` insert a placeholder one (here `visit_date` IS
passed); an exception rolls back and flashes a failure. -/
def save_prescription (loggedIn : Bool) (uhid : String)
    (visitingForm : Option Nat) (now : Nat) (fail : Option String) (db : Db) :
    Db × SavePresResp :=
  if ¬ loggedIn then (db, .redirectLogin)
  else
    match visitingForm with
    | none => (db, .errorNoDate)
    | some visitingDate =>
      if ¬ db.patients.any (fun q => q.uhid == uhid) then (db, .notFound404)
      else
        match fail with
        | some _ => (db, .doneRedirect false)
        | none =>
          let isHit := fun (t : TreatmentRow) => t.uhid == uhid && t.visit_date == visitingDate
          if (db.treatments.find? isHit).isSome then (db, .doneRedirect true)
          else
            let diag :=
              match db.assessments.find?
                  (fun a => a.uhid == uhid && a.visit_date == visitingDate) with
              | some a => a.payload.chief_complaints
              | none => ""           -- the empty dict literal of venkat.py:1026
            let row : TreatmentRow :=
              { id := db.treatments.length + 1, uhid := uhid
                visit_date := visitingDate, diagnosis := diag
                psychotherapy := "psychotherapy_plan: N/A"
                medications := "[]", created_at := now }
            ({ db with treatments := db.treatments ++ [row] }, .doneRedirect true)

/-! ## Operations of the web application

The routes above are the only ones in the application that write to the
`Patient` / `Assessment` / `Treatment` / `LabReport` tables (every other
route only queries them or renders pages; `register` writes to the separate
`User` table).  An `Op` is one mutating request with all its inputs,
including the injected exception outcomes. -/

/-- One mutating request. -/
inductive Op where
  | entry (f : EntryForm) (now : Nat)
  | registration (uhid name age gender : Option String) (now : Nat)
  | assess (loggedIn : Bool) (uhid : String) (visiting : Option Nat)
      (today now : Nat) (p : AssessPayload)
  | treat (loggedIn : Bool) (uhid : String) (visiting : Option Nat)
      (today now : Nat) (p : TreatPayload) (fail : Option String)
  | lab (loggedIn : Bool) (uhid : String) (visiting : Option Nat)
      (today now : Nat) (p : LabPayload) (fail : Option String)
  | savePres (loggedIn : Bool) (uhid : String) (visitingForm : Option Nat)
      (now : Nat) (fail : Option String)

/-- Database effect of one request. -/
def step : Op → Db → Db
  | .entry f now, db => (patient_entry f now db).1
  | .registration u n a g now, db => (patient_registration u n a g now db).1
  | .assess li u v t now p, db => (assessment_form li u v t now p db).1
  | .treat li u v t now p fl, db => (treatment_form li u v t now p fl db).1
  | .lab li u v t now p fl, db => (lab_reports_form li u v t now p fl db).1
  | .savePres li u v now fl, db => (save_prescription li u v now fl db).1

/-- Database effect of a sequence of requests. -/
def run (ops : List Op) (db : Db) : Db :=
  ops.foldl (fun d o => step o d) db

/-! ## Patient JSON API (venkat.py:44-135)

A separate in-memory dictionary `patients` keyed by uhid, with a static
shared-secret header check.  The dictionary is modelled as an association
list in insertion order (Python dict semantics); the seeded demo record
holds an opaque `details` blob, records added through the API hold
name/age/condition. -/

/-- A value of the in-memory `patients` dict. -/
inductive ApiVal where
  | seeded (details : String)
  | added (name : String) (age : Option String) (condition : String)
deriving DecidableEq, Repr

/-- The in-memory patient store. -/
abbrev ApiStore := List (String × ApiVal)

/-- The static key of venkat.py:44. -/
def API_KEY : String := "admin-4567-fghij-02"

/-- `check_api_key` (venkat.py:46-50): the request passes iff the
`X-API-Key` header is present and equals `API_KEY`. -/
def check_api_key (key : Option String) : Bool :=
  key == some API_KEY

/-- JSON body of `POST /api/patient/add`; `none` fields model absent keys
(`'uhid' not in data`). -/
structure AddReq where
  uhid : Option String
  name : Option String
  age : Option String
  condition : Option String
deriving DecidableEq, Repr

/-- Response of the two API endpoints. -/
inductive ApiResp where
  | unauthorized               -- 401, Invalid API Key
  | notFound                   -- 404, Patient not found
  | okDetails (v : ApiVal)     -- 200, the patient's details
  | missingFields              -- 400, missing uhid/name
  | conflict                   -- 409, UHID already exists
  | created (uhid : String)    -- 201, inserted
deriving DecidableEq, Repr

/-- `GET /api/patient/<uhid>` (venkat.py:96-110). -/
def get_patient (key : Option String) (uhid : String) (store : ApiStore) :
    ApiResp × ApiStore :=
  if ¬ check_api_key key then (.unauthorized, store)
  else
    match store.find? (fun kv => kv.1 == uhid) with
    | none => (.notFound, store)
    | some kv => (.okDetails kv.2, store)

/-- `POST /api/patient/add` (venkat.py:113-135); `body = none` models a
request without a JSON object. -/
def add_patient (key : Option String) (body : Option AddReq) (store : ApiStore) :
    ApiResp × ApiStore :=
  if ¬ check_api_key key then (.unauthorized, store)
  else
    match body with
    | none => (.missingFields, store)
    | some data =>
      match data.uhid, data.name with
      | some u, some n =>
        if store.any (fun kv => kv.1 == u) then (.conflict, store)
        else ((.created u), store ++ [(u, .added n data.age (data.condition.getD "N/A"))])
      | _, _ => (.missingFields, store)

/-! ## Helper lemmas -/

/-- `updateFirst` rewrites exactly the first element satisfying `p`. -/
theorem updateFirst_first (p : α → Bool) (f : α → α) (pre : List α) (e : α)
    (post : List α) (hpre : ∀ x ∈ pre, p x = false) (he : p e = true) :
    updateFirst p f (pre ++ e :: post) = pre ++ f e :: post := by
  induction pre with
  | nil => simp [updateFirst, he]
  | cons x xs ih =>
    have hx : p x = false := hpre x (List.mem_cons_self x xs)
    simp only [List.cons_append, updateFirst, hx, Bool.false_eq_true, if_false,
      List.cons.injEq, true_and]
    exact ih fun y hy => hpre y (List.mem_cons_of_mem x hy)

/-! ## C1: the radiology worker's final status -/

/-- C1: if the request is in `REQUEST_QUEUE` when the worker runs, the
worker rewrites exactly that record and nothing else (no retry, no
compensating action): status `Completed` with the downloaded filename when
the download returned one, `Failed` with an error message otherwise,
including both exception paths of the creation call. -/
theorem worker_final_status (rid : String) (create : CreateOutcome)
    (download : Option String) (pre : List ScanRequest) (e : ScanRequest)
    (post : List ScanRequest) (hpre : ∀ x ∈ pre, (x.id == rid) = false)
    (he : e.id = rid) :
    ∃ e', process_scan_request_worker rid create download (pre ++ e :: post)
        = pre ++ e' :: post
      ∧ e'.id = e.id ∧ e'.uhid = e.uhid ∧ e'.department = e.department
      ∧ e'.scan_type = e.scan_type ∧ e'.body_part = e.body_part
      ∧ e'.timestamp = e.timestamp
      ∧ (∀ sid, create = .ok sid →
          (∀ fn, download = some fn →
            e'.status = "Completed" ∧ e'.filename = some fn ∧ e'.error = none)
          ∧ (download = none →
            e'.status = "Failed" ∧ e'.filename = none ∧ e'.error = some "Download failed"))
      ∧ (∀ m, create = .reqExn m →
          e'.status = "Failed" ∧ e'.error = some m ∧ e'.filename = e.filename)
      ∧ (∀ m, create = .otherExn m →
          e'.status = "Failed" ∧ e'.error = some ("An unexpected error occurred: " ++ m)
            ∧ e'.filename = e.filename) := by
  have hany : ((pre ++ e :: post).any fun r => r.id == rid) = true := by
    simp only [List.any_append, List.any_cons, he, beq_self_eq_true, Bool.true_or,
      Bool.or_true]
  have hbe : (fun (r : ScanRequest) => r.id == rid) e = true := by simp [he]
  have hrw : ∀ f : ScanRequest → ScanRequest,
      updateFirst (fun r => r.id == rid) f (pre ++ e :: post) = pre ++ f e :: post :=
    fun f => updateFirst_first (fun r => r.id == rid) f pre e post hpre hbe
  cases create with
  | ok sid =>
    cases download with
    | some fn =>
      refine ⟨{ e with status := "Completed", filename := some fn, error := none },
        ?_, by simp⟩
      unfold process_scan_request_worker
      rw [if_pos hany]
      exact hrw _
    | none =>
      refine ⟨{ e with status := "Failed", filename := none, error := some "Download failed" }, ?_, by simp⟩
      unfold process_scan_request_worker
      rw [if_pos hany]
      exact hrw _
  | reqExn m =>
    refine ⟨{ e with status := "Failed", error := some m }, ?_, by simp⟩
    unfold process_scan_request_worker
    rw [if_pos hany]
    exact hrw _
  | otherExn m =>
    refine ⟨{ e with status := "Failed", error := some ("An unexpected error occurred: " ++ m) }, ?_, by simp⟩
    unfold process_scan_request_worker
    rw [if_pos hany]
    exact hrw _

/-- Concrete queue entry used by witnesses. -/
def reqSample : ScanRequest :=
  { id := "r1", uhid := "UHID77777", department := "PSYCHIATRY", scan_type := "CT"
    body_part := "BRAIN", status := "Pending", filename := none, error := none
    timestamp := "t0" }

/-- Witness for C1: a successful create and download on a one-element queue
completes the request with the downloaded filename. -/
theorem worker_final_status_witness :
    ∃ e', process_scan_request_worker "r1" (.ok (some "s1")) (some "scan.dcm")
        ([] ++ reqSample :: []) = [] ++ e' :: []
      ∧ e'.id = reqSample.id ∧ e'.uhid = reqSample.uhid
      ∧ e'.department = reqSample.department ∧ e'.scan_type = reqSample.scan_type
      ∧ e'.body_part = reqSample.body_part ∧ e'.timestamp = reqSample.timestamp
      ∧ (∀ sid, (CreateOutcome.ok (some "s1") : CreateOutcome) = .ok sid →
          (∀ fn, (some "scan.dcm" : Option String) = some fn →
            e'.status = "Completed" ∧ e'.filename = some fn ∧ e'.error = none)
          ∧ ((some "scan.dcm" : Option String) = none →
            e'.status = "Failed" ∧ e'.filename = none ∧ e'.error = some "Download failed"))
      ∧ (∀ m, (CreateOutcome.ok (some "s1") : CreateOutcome) = .reqExn m →
          e'.status = "Failed" ∧ e'.error = some m ∧ e'.filename = reqSample.filename)
      ∧ (∀ m, (CreateOutcome.ok (some "s1") : CreateOutcome) = .otherExn m →
          e'.status = "Failed" ∧ e'.error = some ("An unexpected error occurred: " ++ m)
            ∧ e'.filename = reqSample.filename) :=
  worker_final_status "r1" (.ok (some "s1")) (some "scan.dcm") [] reqSample []
    (by intro x hx; cases hx) rfl

/-! ## C10: the radiology submission route -/

/-- C10: a POST with any of the four fields missing (or empty — Flask form
fields are empty strings when left blank, and `all([...])` treats those as
missing too) answers `Missing form data` with status 400, leaves
`REQUEST_QUEUE` unchanged and starts no thread; a POST with all four
present inserts exactly one new `Pending` record with the freshly generated
uuid as id and empty filename/error at the front of the queue, starts
exactly one worker thread for that id, and redirects back to the
submission page. -/
theorem radiology_submit_spec (uhid department scan_type body_part : Option String)
    (newId now : String) (queue : List ScanRequest) :
    (¬ (truthy uhid ∧ truthy department ∧ truthy scan_type ∧ truthy body_part) →
      radiology_submit uhid department scan_type body_part newId now queue
        = (.missingFormData, queue, []))
    ∧ ((truthy uhid ∧ truthy department ∧ truthy scan_type ∧ truthy body_part) →
      radiology_submit uhid department scan_type body_part newId now queue
        = (.redirectSubmit newId (uhid.getD "") (scan_type.getD ""),
           { id := newId, uhid := uhid.getD "", department := department.getD ""
             scan_type := scan_type.getD "", body_part := body_part.getD ""
             status := "Pending", filename := none, error := none
             timestamp := now } :: queue,
           [{ request_id := newId, host := DEFAULT_HOST
              department := department.getD "", uhid := uhid.getD ""
              scan_type := scan_type.getD "", body_part := body_part.getD "" }])) := by
  constructor
  · intro h
    simp only [radiology_submit, if_neg h]
  · intro h
    simp only [radiology_submit, if_pos h]

/-- Witness for C10: both branches at concrete inputs — a missing
`body_part` is rejected without queueing or spawning, and a complete form
queues one `Pending` record and spawns one worker. -/
theorem radiology_submit_spec_witness :
    (radiology_submit (some "UHID77777") (some "ORTHOPEDICS") (some "CT") none
        "id1" "t1" [] = (.missingFormData, [], []))
    ∧ (radiology_submit (some "UHID77777") (some "ORTHOPEDICS") (some "CT") (some "BRAIN")
        "id1" "t1" []
        = (.redirectSubmit "id1" "UHID77777" "CT",
           [{ id := "id1", uhid := "UHID77777", department := "ORTHOPEDICS"
              scan_type := "CT", body_part := "BRAIN", status := "Pending"
              filename := none, error := none, timestamp := "t1" }],
           [{ request_id := "id1", host := DEFAULT_HOST, department := "ORTHOPEDICS"
              uhid := "UHID77777", scan_type := "CT", body_part := "BRAIN" }])) :=
  ⟨(radiology_submit_spec (some "UHID77777") (some "ORTHOPEDICS") (some "CT") none
      "id1" "t1" []).1 (by decide),
   (radiology_submit_spec (some "UHID77777") (some "ORTHOPEDICS") (some "CT") (some "BRAIN")
      "id1" "t1" []).2 (by decide)⟩

/-! ## C4: the lab-test ordering blueprint -/

/-- C4 counterexample: at a concrete valid submission the labs `index` POST
spawns no thread and makes no external HTTP call — the order is recorded
synchronously and its page status is the constant `"unknown"`, never
`completed` or `failed`.  This refutes the claim that the blueprint spawns
one thread per request to call an external endpoint and mark the record
completed or failed. -/
theorem labs_index_no_thread_counterexample :
    (labs_index_post (some "psychiatry") (some "UHID001") (some "routine")
        (some "Blood") none ["GLU"] "ab12cd34" "2026-10-12 10:00:00" []).effects.threadsSpawned = []
    ∧ (labs_index_post (some "psychiatry") (some "UHID001") (some "routine")
        (some "Blood") none ["GLU"] "ab12cd34" "2026-10-12 10:00:00" []).effects.httpCalls = []
    ∧ (labs_index_post (some "psychiatry") (some "UHID001") (some "routine")
        (some "Blood") none ["GLU"] "ab12cd34" "2026-10-12 10:00:00" []).orderId = some "ab12cd34"
    ∧ (labs_index_post (some "psychiatry") (some "UHID001") (some "routine")
        (some "Blood") none ["GLU"] "ab12cd34" "2026-10-12 10:00:00" []).statuses
      = [("ab12cd34", "unknown")] := by
  decide

/-- C4 amended: the lab-test ordering blueprint handles a submission
synchronously in-request — it validates the department/UHID/tests, appends
one new order with the freshly generated hex token as order id to the
department-filtered JSON-file history and rewrites the file with it; no
thread is spawned, no external HTTP endpoint is called, and the record is
never marked completed or failed (every order's rendered status is
`"unknown"`). -/
theorem labs_index_post_spec (sessionDept uhid priority specimen remarks : Option String)
    (tests : List String) (token now : String) (file : List LabOrder) :
    (labs_index_post sessionDept uhid priority specimen remarks tests token now file).effects.threadsSpawned = []
    ∧ (labs_index_post sessionDept uhid priority specimen remarks tests token now file).effects.httpCalls = []
    ∧ ((truthy (some (sessionDept.getD "psychiatry")) ∧ truthy uhid ∧ tests ≠ []) →
        (labs_index_post sessionDept uhid priority specimen remarks tests token now file).file
          = load_history (some (sessionDept.getD "psychiatry")) file ++
            [{ orderId := token, department := sessionDept.getD "psychiatry"
               uhid := uhid.getD "", tests := tests, priority := priority
               specimen := specimen, remarks := remarks, createdAt := now }]
        ∧ (labs_index_post sessionDept uhid priority specimen remarks tests token now file).orderId
          = some token
        ∧ (labs_index_post sessionDept uhid priority specimen remarks tests token now file).error
          = none)
    ∧ (¬ (truthy (some (sessionDept.getD "psychiatry")) ∧ truthy uhid ∧ tests ≠ []) →
        (labs_index_post sessionDept uhid priority specimen remarks tests token now file).file = file
        ∧ (labs_index_post sessionDept uhid priority specimen remarks tests token now file).orderId
          = none
        ∧ (labs_index_post sessionDept uhid priority specimen remarks tests token now file).error
          = some "UHID and at least one Test are required.")
    ∧ (∀ s ∈ (labs_index_post sessionDept uhid priority specimen remarks tests token now file).statuses,
        s.2 = "unknown") := by
  refine ⟨rfl, rfl, ?_, ?_, ?_⟩
  · intro h
    simp [labs_index_post, if_pos h]
  · intro h
    simp [labs_index_post, if_neg h]
  · intro s hs
    simp only [labs_index_post] at hs
    obtain ⟨o, -, rfl⟩ := List.mem_map.mp hs
    rfl

/-- Witness for C4's amended theorem: both branches at concrete inputs — a
valid submission appends the order with no thread or HTTP call, a
submission without tests is refused with the history unchanged. -/
theorem labs_index_post_spec_witness :
    ((labs_index_post (some "surgery") (some "UHID009") none none none ["CBC"]
        "ff00aa11" "t2" []).file
      = [{ orderId := "ff00aa11", department := "surgery", uhid := "UHID009"
           tests := ["CBC"], priority := none, specimen := none, remarks := none
           createdAt := "t2" }])
    ∧ ((labs_index_post (some "surgery") (some "UHID009") none none none []
        "ff00aa11" "t2" []).error = some "UHID and at least one Test are required.") :=
  ⟨by
    have h := (labs_index_post_spec (some "surgery") (some "UHID009") none none none
      ["CBC"] "ff00aa11" "t2" []).2.2.1 (by decide)
    simpa [load_history] using h.1,
   by
    have h := (labs_index_post_spec (some "surgery") (some "UHID009") none none none
      [] "ff00aa11" "t2" []).2.2.2.1 (by decide)
    exact h.2.2⟩

/-! ## C9: department gating of lab results and report downloads -/

/-- C9: with a department in the session, both the results page and the
report download answer 404 when no history entry carries the requested
order id, 403 when the entry's department differs case-insensitively from
the session department, and serve content only when the departments match
case-insensitively. -/
theorem labs_department_gate (d oid : String) (fetch : FetchOutcome)
    (file : List LabOrder) :
    (file.find? (fun x => x.orderId == oid) = none →
      view_results (some d) oid fetch file = .notFoundPage oid
      ∧ serve_report (some d) oid file = .notFoundPage oid)
    ∧ (∀ o, file.find? (fun x => x.orderId == oid) = some o →
        (pyLower o.department = pyLower d →
          serve_report (some d) oid file = .servedFile ("order_" ++ oid ++ ".txt")
          ∧ (∀ data, fetch = .ok data →
              view_results (some d) oid fetch file = .resultsPage data)
          ∧ (∀ st, fetch = .httpError st →
              view_results (some d) oid fetch file = .failedLoadPage st)
          ∧ (∀ m, fetch = .exn m →
              view_results (some d) oid fetch file = .exceptionPage m))
        ∧ (pyLower o.department ≠ pyLower d →
          view_results (some d) oid fetch file = .forbiddenPage
          ∧ serve_report (some d) oid file = .forbiddenPage))
    ∧ (∀ data, view_results (some d) oid fetch file = .resultsPage data →
        ∃ o, file.find? (fun x => x.orderId == oid) = some o
          ∧ pyLower o.department = pyLower d)
    ∧ (∀ fn, serve_report (some d) oid file = .servedFile fn →
        ∃ o, file.find? (fun x => x.orderId == oid) = some o
          ∧ pyLower o.department = pyLower d) := by
  refine ⟨?_, ?_, ?_, ?_⟩
  · intro hfind
    constructor <;> simp [view_results, serve_report, load_history, hfind]
  · intro o hfind
    constructor
    · intro hdep
      refine ⟨?_, ?_, ?_, ?_⟩
      · simp [serve_report, load_history, hfind, hdep]
      · intro data hf
        simp [view_results, load_history, hfind, hdep, hf]
      · intro st hf
        simp [view_results, load_history, hfind, hdep, hf]
      · intro m hf
        simp [view_results, load_history, hfind, hdep, hf]
    · intro hdep
      have hbeq : (pyLower o.department == pyLower d) = false := by
        simpa using hdep
      constructor <;> simp [view_results, serve_report, load_history, hfind, hbeq]
  · intro data hview
    rcases hfind : file.find? (fun x => x.orderId == oid) with - | o
    · simp [view_results, load_history, hfind] at hview
    · by_cases hdep : pyLower o.department = pyLower d
      · exact ⟨o, hfind, hdep⟩
      · have hbeq : (pyLower o.department == pyLower d) = false := by simpa using hdep
        simp [view_results, load_history, hfind, hbeq] at hview
  · intro fn hserve
    rcases hfind : file.find? (fun x => x.orderId == oid) with - | o
    · simp [serve_report, load_history, hfind] at hserve
    · by_cases hdep : pyLower o.department = pyLower d
      · exact ⟨o, hfind, hdep⟩
      · have hbeq : (pyLower o.department == pyLower d) = false := by simpa using hdep
        simp [serve_report, load_history, hfind, hbeq] at hserve

/-- Concrete history entry used by witnesses. -/
def orderSample : LabOrder :=
  { orderId := "ord1", department := "psychiatry", uhid := "UHID001"
    tests := ["GLU"], priority := some "routine", specimen := some "Blood"
    remarks := none, createdAt := "2026-10-12" }

/-- Witness for C9: on a one-entry history, an unknown order id is a 404 on
both routes, and the known order id with the session department differing
only in case serves the report and the results. -/
theorem labs_department_gate_witness :
    (view_results (some "PSYCHIATRY") "zzz" (.ok "data") [orderSample]
        = .notFoundPage "zzz")
    ∧ (serve_report (some "PSYCHIATRY") "ord1" [orderSample]
        = .servedFile "order_ord1.txt")
    ∧ (view_results (some "PSYCHIATRY") "ord1" (.ok "data") [orderSample]
        = .resultsPage "data")
    ∧ (view_results (some "surgery") "ord1" (.ok "data") [orderSample]
        = .forbiddenPage) :=
  ⟨((labs_department_gate "PSYCHIATRY" "zzz" (.ok "data") [orderSample]).1
      (by decide)).1,
   (((labs_department_gate "PSYCHIATRY" "ord1" (.ok "data") [orderSample]).2.1
      orderSample (by decide)).1 (by decide)).1,
   ((((labs_department_gate "PSYCHIATRY" "ord1" (.ok "data") [orderSample]).2.1
      orderSample (by decide)).1 (by decide)).2.1 "data" rfl),
   (((labs_department_gate "surgery" "ord1" (.ok "data") [orderSample]).2.1
      orderSample (by decide)).2 (by decide)).1⟩

/-! ## C5: the patient JSON API -/

/-- C5: a request whose `X-API-Key` header differs from the static key
(including an absent header) is rejected with 401 on both endpoints, no
patient data is returned and the store is unchanged; with the correct key,
GET returns the patient's details or 404 for an unknown uhid, and add
returns 400 when the body or its uhid/name is missing, 409 without
modification when the uhid already exists, and 201 after appending the new
record otherwise. -/
theorem patient_api_spec (key : Option String) (uhid : String)
    (body : Option AddReq) (store : ApiStore) :
    (key ≠ some API_KEY →
      get_patient key uhid store = (.unauthorized, store)
      ∧ add_patient key body store = (.unauthorized, store))
    ∧ (store.find? (fun kv => kv.1 == uhid) = none →
        get_patient (some API_KEY) uhid store = (.notFound, store))
    ∧ (∀ v, store.find? (fun kv => kv.1 == uhid) = some v →
        get_patient (some API_KEY) uhid store = (.okDetails v.2, store))
    ∧ (body = none → add_patient (some API_KEY) body store = (.missingFields, store))
    ∧ (∀ data, body = some data →
        ((data.uhid = none ∨ data.name = none) →
          add_patient (some API_KEY) body store = (.missingFields, store))
        ∧ (∀ u n, data.uhid = some u → data.name = some n →
            (store.any (fun kv => kv.1 == u) = true →
              add_patient (some API_KEY) body store = (.conflict, store))
            ∧ (store.any (fun kv => kv.1 == u) = false →
              add_patient (some API_KEY) body store =
                (.created u,
                 store ++ [(u, .added n data.age (data.condition.getD "N/A"))])))) := by
  have hkey : check_api_key (some API_KEY) = true := by simp [check_api_key]
  refine ⟨?_, ?_, ?_, ?_, ?_⟩
  · intro hk
    have hck : check_api_key key = false := by
      simp [check_api_key, hk]
    constructor <;> simp [get_patient, add_patient, hck]
  · intro hfind
    simp [get_patient, hkey, hfind]
  · intro v hfind
    simp [get_patient, hkey, hfind]
  · intro hb
    simp [add_patient, hkey, hb]
  · intro data hb
    subst hb
    constructor
    · rintro (hu | hn)
      · simp [add_patient, hkey, hu]
      · cases hud : data.uhid <;> simp [add_patient, hkey, hud, hn]
    · intro u n hu hn
      constructor
      · intro hexists
        simp [add_patient, hkey, hu, hn, hexists]
      · intro hnew
        simp [add_patient, hkey, hu, hn, hnew]

/-- Witness for C5: a wrong key is rejected with the store unchanged; with
the right key, an unknown uhid is a 404, the seeded record is returned, a
duplicate add is a 409 and a fresh add is a 201 that appends. -/
theorem patient_api_spec_witness :
    (get_patient (some "wrong") "UHID001" [("UHID001", .seeded "demo")]
      = (.unauthorized, [("UHID001", .seeded "demo")]))
    ∧ (get_patient (some API_KEY) "UHID002" [("UHID001", .seeded "demo")]
      = (.notFound, [("UHID001", .seeded "demo")]))
    ∧ (get_patient (some API_KEY) "UHID001" [("UHID001", .seeded "demo")]
      = (.okDetails (.seeded "demo"), [("UHID001", .seeded "demo")]))
    ∧ (add_patient (some API_KEY)
        (some { uhid := some "UHID001", name := some "Bea", age := none, condition := none })
        [("UHID001", .seeded "demo")]
      = (.conflict, [("UHID001", .seeded "demo")]))
    ∧ (add_patient (some API_KEY)
        (some { uhid := some "UHID002", name := some "Bea", age := none, condition := none })
        [("UHID001", .seeded "demo")]
      = (.created "UHID002",
         [("UHID001", .seeded "demo"), ("UHID002", .added "Bea" none "N/A")])) :=
  ⟨((patient_api_spec (some "wrong") "UHID001" none [("UHID001", .seeded "demo")]).1
      (by decide)).1,
   (patient_api_spec (some API_KEY) "UHID002" none [("UHID001", .seeded "demo")]).2.1
      (by decide),
   (patient_api_spec (some API_KEY) "UHID001" none [("UHID001", .seeded "demo")]).2.2.1
      ("UHID001", .seeded "demo") (by decide),
   (((patient_api_spec (some API_KEY) "UHID001"
        (some { uhid := some "UHID001", name := some "Bea", age := none, condition := none })
        [("UHID001", .seeded "demo")]).2.2.2.2
      { uhid := some "UHID001", name := some "Bea", age := none, condition := none } rfl).2
      "UHID001" "Bea" rfl rfl).1 (by decide),
   (((patient_api_spec (some API_KEY) "UHID001"
        (some { uhid := some "UHID002", name := some "Bea", age := none, condition := none })
        [("UHID001", .seeded "demo")]).2.2.2.2
      { uhid := some "UHID002", name := some "Bea", age := none, condition := none } rfl).2
      "UHID002" "Bea" rfl rfl).2 (by decide)⟩

/-! ## C6: rollback and generic errors on save failures -/

/-- C6: when saving raises (any exception inside the `try` bodies, injected
here as `fail = some e`), both the treatment form and the lab-report form
roll the session back — the database is returned unchanged — and answer a
generic message built from `str(e)`: a JSON body with status 500 for the
treatment form, a flashed message with a redirect for the lab-report
form. -/
theorem save_failure_rolls_back (uhid : String) (visiting : Option Nat)
    (today now : Nat) (p : TreatPayload) (q : LabPayload) (e : String) (db : Db)
    (hpat : db.patients.any (fun r => r.uhid == uhid) = true) :
    treatment_form true uhid visiting today now p (some e) db
      = (db, .saveFailed ("Failed to save data. Please try again. Error: " ++ e))
    ∧ lab_reports_form true uhid visiting today now q (some e) db
      = (db, .failedRedirect ("Failed to save lab reports. Please try again. Error: " ++ e)) := by
  constructor
  · simp [treatment_form, hpat]
  · simp [lab_reports_form, hpat]

/-- Concrete patient row used by witnesses (the result of a first
`patient_entry` submission). -/
def patientRow1 : PatientRow :=
  { id := 1, uhid := "UHID001", name := some "Alice", age := none, gender := none
    mobile_no := none, email := none, bp_sys := none, bp_dia := none
    sugar := none, height := none, weight := none, temperature := none
    abnormal_bp := false, abnormal_sugar := false, abnormal_temp := false
    registration_date := 0 }

/-- Witness for C6: on a database with one patient, an injected save
exception leaves the database unchanged and produces the generic
responses. -/
theorem save_failure_rolls_back_witness :
    treatment_form true "UHID001" (some 3) 5 7 ⟨"d", "p", "m"⟩ (some "boom")
        ⟨[patientRow1], [], [], []⟩
      = (⟨[patientRow1], [], [], []⟩,
         .saveFailed "Failed to save data. Please try again. Error: boom")
    ∧ lab_reports_form true "UHID001" (some 3) 5 7 ⟨"t", "s"⟩ (some "boom")
        ⟨[patientRow1], [], [], []⟩
      = (⟨[patientRow1], [], [], []⟩,
         .failedRedirect "Failed to save lab reports. Please try again. Error: boom") :=
  save_failure_rolls_back "UHID001" (some 3) 5 7 ⟨"d", "p", "m"⟩ ⟨"t", "s"⟩ "boom"
    ⟨[patientRow1], [], [], []⟩ (by decide)

/-! ## C7: the derived abnormal-vitals flags -/

/-- The blood-pressure conversion fails exactly when both fields are
supplied and one of them does not parse. -/
theorem bpFlag_none_iff (f : EntryForm) :
    bpFlag f = none ↔
      truthy f.bp_sys = true ∧ truthy f.bp_dia = true ∧
        (pyInt (f.bp_sys.getD "") = none ∨ pyInt (f.bp_dia.getD "") = none) := by
  unfold bpFlag
  by_cases h : truthy f.bp_sys = true ∧ truthy f.bp_dia = true
  · rw [if_pos h]
    rcases hs : pyInt (f.bp_sys.getD "") with - | sv <;>
      rcases hd : pyInt (f.bp_dia.getD "") with - | dv <;> simp [h]
  · rw [if_neg h]
    simp only [reduceCtorEq, false_iff]
    exact fun hh => h ⟨hh.1, hh.2.1⟩

/-- The computed blood-pressure flag is set exactly under the source's
condition. -/
theorem bpFlag_true_iff (f : EntryForm) :
    bpFlag f = some true ↔
      truthy f.bp_sys = true ∧ truthy f.bp_dia = true ∧
        ∃ sv dv, pyInt (f.bp_sys.getD "") = some sv ∧ pyInt (f.bp_dia.getD "") = some dv
          ∧ (sv > 140 ∨ dv > 90) := by
  unfold bpFlag
  by_cases h : truthy f.bp_sys = true ∧ truthy f.bp_dia = true
  · rw [if_pos h]
    rcases hs : pyInt (f.bp_sys.getD "") with - | sv <;>
      rcases hd : pyInt (f.bp_dia.getD "") with - | dv <;> simp [h]
  · rw [if_neg h]
    simp only [Option.some_inj, Bool.false_eq_true, false_iff]
    exact fun hh => h ⟨hh.1, hh.2.1⟩

/-- The sugar conversion fails exactly when the field is supplied and does
not parse. -/
theorem sugarFlag_none_iff (f : EntryForm) :
    sugarFlag f = none ↔ truthy f.sugar = true ∧ pyInt (f.sugar.getD "") = none := by
  unfold sugarFlag
  by_cases h : truthy f.sugar = true
  · rw [if_pos h]
    rcases hv : pyInt (f.sugar.getD "") with - | v <;> simp [h]
  · rw [if_neg h]
    simp only [reduceCtorEq, false_iff]
    exact fun hh => h hh.1

/-- The computed sugar flag is set exactly under the source's condition. -/
theorem sugarFlag_true_iff (f : EntryForm) :
    sugarFlag f = some true ↔
      truthy f.sugar = true ∧
        ∃ v, pyInt (f.sugar.getD "") = some v ∧ (v < 70 ∨ v > 180) := by
  unfold sugarFlag
  by_cases h : truthy f.sugar = true
  · rw [if_pos h]
    rcases hv : pyInt (f.sugar.getD "") with - | v <;> simp [h]
  · rw [if_neg h]
    simp only [Option.some_inj, Bool.false_eq_true, false_iff]
    exact fun hh => h hh.1

/-- The temperature conversion fails exactly when the field is supplied and
does not parse. -/
theorem tempFlag_none_iff (f : EntryForm) :
    tempFlag f = none ↔ truthy f.temp = true ∧ pyFloat (f.temp.getD "") = none := by
  unfold tempFlag
  by_cases h : truthy f.temp = true
  · rw [if_pos h]
    rcases hv : pyFloat (f.temp.getD "") with - | v <;> simp [h]
  · rw [if_neg h]
    simp only [reduceCtorEq, false_iff]
    exact fun hh => h hh.1

/-- The computed temperature flag is set exactly under the source's
condition. -/
theorem tempFlag_true_iff (f : EntryForm) :
    tempFlag f = some true ↔
      truthy f.temp = true ∧
        ∃ v, pyFloat (f.temp.getD "") = some v ∧ (v < 97 ∨ v > 99) := by
  unfold tempFlag
  by_cases h : truthy f.temp = true
  · rw [if_pos h]
    rcases hv : pyFloat (f.temp.getD "") with - | v <;> simp [h]
  · rw [if_neg h]
    simp only [Option.some_inj, Bool.false_eq_true, false_iff]
    exact fun hh => h hh.1

/-- The vitals block fails exactly when one of its three conversions
fails. -/
theorem vitalsFlags_none_iff (f : EntryForm) :
    vitalsFlags f = none ↔ bpFlag f = none ∨ sugarFlag f = none ∨ tempFlag f = none := by
  rcases hb : bpFlag f with - | b <;> rcases hs : sugarFlag f with - | s <;>
    rcases ht : tempFlag f with - | t <;> simp [vitalsFlags, hb, hs, ht]

/-- A successful vitals block returns exactly the three component flags. -/
theorem vitalsFlags_some (f : EntryForm) (b s t : Bool)
    (h : vitalsFlags f = some (b, s, t)) :
    bpFlag f = some b ∧ sugarFlag f = some s ∧ tempFlag f = some t := by
  rcases hb : bpFlag f with - | b' <;> rcases hs : sugarFlag f with - | s' <;>
    rcases ht : tempFlag f with - | t' <;> simp [vitalsFlags, hb, hs, ht] at h <;>
    simp_all

/-- Concrete form for the C7 counterexample: a supplied but non-numeric
systolic value with no diastolic value. -/
def c7Form : EntryForm :=
  { patient_name := some "Carol", age := none, gender := none, mobile_no := none
    email := none, bp_sys := some "abc", bp_dia := none, sugar := none
    height := none, weight := none, temp := none }

/-- C7 counterexample: `bp_sys` is supplied and fails to parse as a number,
yet `patient_entry` creates the Patient row (with `abnormal_bp = false`)
instead of redirecting — the code never attempts the conversion because
`bp_dia` is missing.  This refutes the claim that any supplied vital that
fails to parse prevents row creation. -/
theorem patient_entry_unparsed_bp_counterexample :
    truthy c7Form.bp_sys = true
    ∧ pyInt (c7Form.bp_sys.getD "") = none
    ∧ (patient_entry c7Form 0 Db.empty).2 = .ok "UHID001"
    ∧ (patient_entry c7Form 0 Db.empty).1.patients.map (fun r => r.abnormal_bp)
      = [false] := by
  decide

/-- C7 amended: the stored flags satisfy the claimed iffs (`abnormal_bp`
iff systolic > 140 or diastolic > 90 when both are supplied,
`abnormal_sugar` iff sugar < 70 or > 180 when supplied, `abnormal_temp`
iff temperature < 97.0 or > 99.0 when supplied); and the
no-row-plus-redirect behaviour applies exactly when one of the conversions
the code actually attempts fails — the blood-pressure pair is only parsed
when both fields are supplied, so a non-numeric `bp_sys` or `bp_dia`
without its partner is stored unparsed and creates the row anyway. -/
theorem patient_entry_vitals_spec (f : EntryForm) (now : Nat) (db : Db) :
    (vitalsFlags f = none ↔
      (truthy f.bp_sys = true ∧ truthy f.bp_dia = true ∧
        (pyInt (f.bp_sys.getD "") = none ∨ pyInt (f.bp_dia.getD "") = none))
      ∨ (truthy f.sugar = true ∧ pyInt (f.sugar.getD "") = none)
      ∨ (truthy f.temp = true ∧ pyFloat (f.temp.getD "") = none))
    ∧ (vitalsFlags f = none → patient_entry f now db = (db, .invalidVitals))
    ∧ (∀ b s t, vitalsFlags f = some (b, s, t) →
        (b = true ↔ truthy f.bp_sys = true ∧ truthy f.bp_dia = true ∧
          ∃ sv dv, pyInt (f.bp_sys.getD "") = some sv
            ∧ pyInt (f.bp_dia.getD "") = some dv ∧ (sv > 140 ∨ dv > 90))
        ∧ (s = true ↔ truthy f.sugar = true ∧
          ∃ v, pyInt (f.sugar.getD "") = some v ∧ (v < 70 ∨ v > 180))
        ∧ (t = true ↔ truthy f.temp = true ∧
          ∃ v, pyFloat (f.temp.getD "") = some v ∧ (v < 97 ∨ v > 99)))
    ∧ (∀ db' u, patient_entry f now db = (db', .ok u) →
        ∃ b s t row, vitalsFlags f = some (b, s, t)
          ∧ db'.patients = db.patients ++ [row]
          ∧ row.abnormal_bp = b ∧ row.abnormal_sugar = s ∧ row.abnormal_temp = t) := by
  refine ⟨?_, ?_, ?_, ?_⟩
  · rw [vitalsFlags_none_iff, bpFlag_none_iff, sugarFlag_none_iff, tempFlag_none_iff]
  · intro h
    simp [patient_entry, h]
  · intro b s t h
    obtain ⟨hb, hs, ht⟩ := vitalsFlags_some f b s t h
    refine ⟨?_, ?_, ?_⟩
    · rw [← bpFlag_true_iff, hb]
      simp [eq_comm]
    · rw [← sugarFlag_true_iff, hs]
      simp [eq_comm]
    · rw [← tempFlag_true_iff, ht]
      simp [eq_comm]
  · intro db' u hok
    rcases hv : vitalsFlags f with - | ⟨b, s, t⟩
    · simp [patient_entry, hv] at hok
    · by_cases hguard : f.patient_name = none
        ∨ (db.patients.any fun p => p.uhid == generate_uhid db.patients) = true
      · simp only [patient_entry, hv] at hok
        rw [if_pos hguard] at hok
        exact absurd (congrArg Prod.snd hok) (by simp)
      · simp only [patient_entry, hv] at hok
        rw [if_neg hguard] at hok
        refine ⟨b, s, t,
          { id := db.patients.length + 1, uhid := generate_uhid db.patients
            name := f.patient_name, age := f.age.bind pyInt, gender := f.gender
            mobile_no := f.mobile_no, email := f.email, bp_sys := f.bp_sys
            bp_dia := f.bp_dia, sugar := f.sugar, height := f.height
            weight := f.weight, temperature := f.temp, abnormal_bp := b
            abnormal_sugar := s, abnormal_temp := t, registration_date := now },
          rfl, ?_, rfl, rfl, rfl⟩
        exact (congrArg (fun x => x.1.patients) hok).symm

/-- Witness for C7's amended theorem: a non-numeric supplied sugar value
aborts without a row, and a form with systolic 150/diastolic 80 and sugar
60 creates one row whose flags come from the vitals computation. -/
theorem patient_entry_vitals_spec_witness :
    patient_entry
        { patient_name := some "Dana", age := none, gender := none, mobile_no := none
          email := none, bp_sys := none, bp_dia := none, sugar := some "low"
          height := none, weight := none, temp := none } 0 Db.empty
      = (Db.empty, .invalidVitals)
    ∧ (∃ b s t row,
        vitalsFlags
          { patient_name := some "Dana", age := none, gender := none, mobile_no := none
            email := none, bp_sys := some "150", bp_dia := some "80"
            sugar := some "60", height := none, weight := none
            temp := none } = some (b, s, t)
        ∧ (patient_entry
            { patient_name := some "Dana", age := none, gender := none, mobile_no := none
              email := none, bp_sys := some "150", bp_dia := some "80"
              sugar := some "60", height := none, weight := none
              temp := none } 0 Db.empty).1.patients
          = Db.empty.patients ++ [row]
        ∧ row.abnormal_bp = b ∧ row.abnormal_sugar = s ∧ row.abnormal_temp = t) :=
  ⟨(patient_entry_vitals_spec
      { patient_name := some "Dana", age := none, gender := none, mobile_no := none
        email := none, bp_sys := none, bp_dia := none, sugar := some "low"
        height := none, weight := none, temp := none } 0 Db.empty).2.1 (by decide),
   (patient_entry_vitals_spec
      { patient_name := some "Dana", age := none, gender := none, mobile_no := none
        email := none, bp_sys := some "150", bp_dia := some "80", sugar := some "60"
        height := none, weight := none, temp := none } 0 Db.empty).2.2.2
      _ "UHID001" (by decide)⟩

/-! ## C3: UHID generation and uniqueness -/

/-- Skipping exactly the length of `l` consumes `l`. -/
theorem pyReplaceGo_skip (pat repl : List Char) (l rest : List Char) :
    pyReplaceGo pat repl l.length (l ++ rest) = pyReplaceGo pat repl 0 rest := by
  induction l with
  | nil => rfl
  | cons c l ih => exact ih

/-- When the pattern's first character never occurs, nothing is replaced. -/
theorem pyReplaceGo_of_head_not_mem (p0 : Char) (pr repl l : List Char)
    (h : p0 ∉ l) : pyReplaceGo (p0 :: pr) repl 0 l = l := by
  induction l with
  | nil => rfl
  | cons c rest ih =>
    have hc : (p0 == c) = false := by
      simp only [beq_eq_false_iff_ne, ne_eq]
      exact fun hh => h (hh ▸ List.mem_cons_self c rest)
    have hpre : ((p0 :: pr).isPrefixOf (c :: rest)) = false := by
      simp only [List.isPrefixOf, hc, Bool.false_and]
    rw [pyReplaceGo, if_neg (by simp [hpre])]
    exact congrArg (c :: ·) (ih fun hm => h (List.mem_cons_of_mem c hm))

/-- A leading occurrence of the pattern is replaced and scanning resumes
after it. -/
theorem pyReplaceGo_of_leading (pat repl rest : List Char) (hne : pat ≠ []) :
    pyReplaceGo pat repl 0 (pat ++ rest) = repl ++ pyReplaceGo pat repl 0 rest := by
  cases pat with
  | nil => exact absurd rfl hne
  | cons p0 pr =>
    have hpre : ((p0 :: pr).isPrefixOf (p0 :: (pr ++ rest))) = true := by
      rw [← List.cons_append]
      exact List.isPrefixOf_iff_prefix.mpr (List.prefix_append _ _)
    rw [List.cons_append, pyReplaceGo, if_pos ⟨hpre, by simp⟩]
    exact congrArg (repl ++ ·) (pyReplaceGo_skip (p0 :: pr) repl pr rest)

/-- Stripping the `"UHID"` prefix from `"UHID" ++ s` with `str.replace`
yields `s` when `'U'` does not occur in `s`. -/
theorem pyReplace_strip_uhid (s : String) (h : 'U' ∉ s.toList) :
    pyReplace ("UHID" ++ s) "UHID" "" = s := by
  show String.mk (pyReplaceGo "UHID".toList "".toList 0 ("UHID" ++ s).toList) = s
  have h1 : ("UHID" ++ s).toList = "UHID".toList ++ s.toList := rfl
  rw [h1, pyReplaceGo_of_leading _ _ _ (by decide)]
  have h2 : pyReplaceGo "UHID".toList "".toList 0 s.toList = s.toList := by
    have hu : "UHID".toList = 'U' :: "HID".toList := by decide
    rw [hu]
    exact pyReplaceGo_of_head_not_mem 'U' _ _ s.toList h
  rw [h2]
  cases s
  rfl

/-- Digit characters are not `'U'`. -/
theorem not_mem_of_all_digit (s : List Char) (hd : ∀ c ∈ s, c.isDigit) :
    'U' ∉ s :=
  fun hm => absurd (hd _ hm) (by decide)

/-- `dropWhile` is the identity when no element satisfies the predicate. -/
theorem dropWhile_eq_self_of_all (p : Char → Bool) (l : List Char)
    (h : ∀ c ∈ l, p c = false) : l.dropWhile p = l := by
  cases l with
  | nil => rfl
  | cons a l =>
    rw [List.dropWhile_cons, if_neg (by simp [h a (List.mem_cons_self a l)])]

/-- Digits are not whitespace. -/
theorem digit_not_whitespace (c : Char) (h : c.isDigit = true) :
    c.isWhitespace = false := by
  by_contra hw
  rw [Bool.not_eq_false] at hw
  have hc : c = ' ' ∨ c = '\t' ∨ c = '\x0d' ∨ c = '\n' := by
    simpa [Char.isWhitespace, or_assoc] using hw
  rcases hc with rfl | rfl | rfl | rfl <;> exact absurd h (by decide)

/-- `int(s)` on a non-empty all-digit string returns its value. -/
theorem pyIntCore_digits (c : Char) (ds : List Char)
    (hd : ∀ x ∈ (c :: ds), x.isDigit) :
    pyIntCore (c :: ds) = some (digitsVal (c :: ds) : Int) := by
  have hw : ∀ x ∈ (c :: ds), x.isWhitespace = false :=
    fun x hx => digit_not_whitespace x (hd x hx)
  have htrim : trimWs (c :: ds) = c :: ds := by
    unfold trimWs
    rw [dropWhile_eq_self_of_all _ _ hw,
      dropWhile_eq_self_of_all _ _ (fun x hx => hw x (List.mem_reverse.mp hx)),
      List.reverse_reverse]
  have hcd : c.isDigit = true := hd c (List.mem_cons_self c ds)
  have hc1 : ¬ (c = '-') := fun hh => absurd hcd (by rw [hh]; decide)
  have hc2 : ¬ (c = '+') := fun hh => absurd hcd (by rw [hh]; decide)
  unfold pyIntCore
  rw [htrim]
  simp only [pySignedDigits, if_neg hc1, if_neg hc2,
    List.all_eq_true.mpr hd, if_pos rfl]
  simp

/-- `generate_uhid` on the standard format: when the last patient's uhid is
`"UHID"` followed by a non-empty digit string, the next uhid is `"UHID"`
followed by the successor of that number, zero-padded to width three. -/
theorem generate_uhid_numeric (ps : List PatientRow) (p : PatientRow) (s : String)
    (hlast : ps.getLast? = some p) (hu : p.uhid = "UHID" ++ s)
    (hne : s.toList ≠ []) (hd : ∀ c ∈ s.toList, c.isDigit) :
    generate_uhid ps = "UHID" ++ pyFormat03 ((digitsVal s.toList : Int) + 1) := by
  have hval : pyInt (pyReplace p.uhid "UHID" "") = some (digitsVal s.toList : Int) := by
    rw [hu, pyReplace_strip_uhid s (not_mem_of_all_digit _ hd)]
    show pyIntCore s.toList = _
    obtain ⟨c, ds, hcd⟩ := List.exists_cons_of_ne_nil hne
    rw [hcd]
    exact pyIntCore_digits c ds (hcd ▸ hd)
  unfold generate_uhid
  rw [hlast]
  simp [hval]

/-- The uhids of the Patient table. -/
def patientUhids (db : Db) : List String :=
  db.patients.map (fun r => r.uhid)

/-- `patient_entry` preserves distinctness of uhids: it only commits its row
when the generated uhid is not already present (otherwise the unique
constraint rejects the insert and the table is unchanged). -/
theorem patient_entry_nodup (f : EntryForm) (now : Nat) (db : Db)
    (h : (patientUhids db).Nodup) :
    (patientUhids (patient_entry f now db).1).Nodup := by
  unfold patient_entry
  rcases hv : vitalsFlags f with - | flags
  · simpa using h
  · simp only []
    by_cases hg : f.patient_name = none
      ∨ (db.patients.any fun p => p.uhid == generate_uhid db.patients) = true
    · rw [if_pos hg]
      exact h
    · rw [if_neg hg]
      have hnotin : generate_uhid db.patients ∉ patientUhids db := by
        intro hm
        obtain ⟨r, hr, hru⟩ := List.mem_map.mp hm
        exact hg (Or.inr (List.any_eq_true.mpr ⟨r, hr, by simp [hru]⟩))
      simp only [patientUhids] at h hnotin ⊢
      simp only [List.map_append, List.map_cons, List.map_nil]
      rw [List.nodup_append]
      exact ⟨h, List.nodup_singleton _, by simpa [List.disjoint_singleton] using hnotin⟩

/-- `patient_registration` preserves distinctness of uhids: it refuses a
submitted uhid that already exists. -/
theorem patient_registration_nodup (uhid name age gender : Option String)
    (now : Nat) (db : Db) (h : (patientUhids db).Nodup) :
    (patientUhids (patient_registration uhid name age gender now db).1).Nodup := by
  unfold patient_registration
  rcases uhid with - | u
  · exact h
  · simp only []
    by_cases hg : (db.patients.any fun p => p.uhid == u) = true
    · rw [if_pos hg]
      exact h
    · rw [if_neg hg]
      rcases name with - | n
      · exact h
      · have hnotin : u ∉ patientUhids db := by
          intro hm
          obtain ⟨r, hr, hru⟩ := List.mem_map.mp hm
          exact hg (List.any_eq_true.mpr ⟨r, hr, by simp [hru]⟩)
        simp only [patientUhids] at h hnotin ⊢
        simp only [List.map_append, List.map_cons, List.map_nil]
        rw [List.nodup_append]
        exact ⟨h, List.nodup_singleton _, by simpa [List.disjoint_singleton] using hnotin⟩

/-- Form used to drive `patient_entry` in concrete states: a plain name
with no vitals. -/
def entryAlice : EntryForm :=
  { patient_name := some "Alice", age := none, gender := none, mobile_no := none
    email := none, bp_sys := none, bp_dia := none, sugar := none
    height := none, weight := none, temp := none }

/-- The reachable state of the C3 counterexample: `patient_entry` creates
`UHID001`, then `patient_registration` accepts the (unused) uhid
`"UHID0"`. -/
def c3Db : Db :=
  (patient_registration (some "UHID0") (some "Bob") none none 1
    ((patient_entry entryAlice 0 Db.empty).1)).1

/-- C3 counterexample: in the reachable state with uhids
`["UHID001", "UHID0"]`, `generate_uhid` returns `"UHID001"` — an already
assigned uhid, not a fresh one — and the subsequent `patient_entry` fails
on the unique constraint instead of creating a patient. -/
theorem generate_uhid_not_fresh_counterexample :
    patientUhids c3Db = ["UHID001", "UHID0"]
    ∧ generate_uhid c3Db.patients = "UHID001"
    ∧ "UHID001" ∈ patientUhids c3Db
    ∧ (patient_entry entryAlice 2 c3Db).2 = .integrityError
    ∧ (patient_entry entryAlice 2 c3Db).1 = c3Db := by
  decide

/-- C3 amended: `generate_uhid` computes `"UHID001"` when no patients exist
and otherwise `"UHID"` followed by the last patient's numeric suffix plus
one zero-padded to three digits, falling back to `"UHID001"` when the
stripped uhid does not parse as an integer; the generated uhid is not
always fresh, and when it collides with an existing uhid `patient_entry`
fails on the unique column constraint without creating a patient.
`patient_registration` refuses a submitted uhid that already exists;
uniqueness of UHID across Patient rows is preserved by both routes. -/
theorem uhid_generation_and_uniqueness (db : Db) (f : EntryForm)
    (uhid name age gender : Option String) (now now2 : Nat)
    (ps : List PatientRow) (p : PatientRow) (s : String) :
    generate_uhid [] = "UHID001"
    ∧ (ps.getLast? = some p → p.uhid = "UHID" ++ s → s.toList ≠ [] →
        (∀ c ∈ s.toList, c.isDigit) →
        generate_uhid ps = "UHID" ++ pyFormat03 ((digitsVal s.toList : Int) + 1))
    ∧ (ps.getLast? = some p → pyInt (pyReplace p.uhid "UHID" "") = none →
        generate_uhid ps = "UHID001")
    ∧ ((patientUhids db).Nodup → (patientUhids (patient_entry f now db).1).Nodup)
    ∧ ((patientUhids db).Nodup →
        (patientUhids (patient_registration uhid name age gender now2 db).1).Nodup)
    ∧ (∀ u, uhid = some u → (db.patients.any fun r => r.uhid == u) = true →
        patient_registration uhid name age gender now2 db = (db, .duplicateUhid))
    ∧ ((db.patients.any fun r => r.uhid == generate_uhid db.patients) = true →
        (patient_entry f now db).1 = db) := by
  refine ⟨rfl, ?_, ?_, patient_entry_nodup f now db,
    patient_registration_nodup uhid name age gender now2 db, ?_, ?_⟩
  · exact generate_uhid_numeric ps p s
  · intro hlast hnone
    unfold generate_uhid
    rw [hlast]
    simp [hnone]
  · intro u hu hdup
    subst hu
    simp [patient_registration, hdup]
  · intro hdup
    unfold patient_entry
    rcases hv : vitalsFlags f with - | flags
    · rfl
    · simp only []
      rw [if_pos (Or.inr hdup)]

/-- Witness for C3's amended theorem: the numeric case at the one-patient
state computes `UHID002`, the registration refusal fires on a duplicate
uhid, and the constraint keeps the table unchanged when the generated uhid
collides. -/
theorem uhid_generation_and_uniqueness_witness :
    generate_uhid [patientRow1] = "UHID" ++ pyFormat03 ((digitsVal "001".toList : Int) + 1)
    ∧ patient_registration (some "UHID001") (some "Bob") none none 1
        ⟨[patientRow1], [], [], []⟩ = (⟨[patientRow1], [], [], []⟩, .duplicateUhid)
    ∧ (patientUhids (patient_entry entryAlice 0 Db.empty).1).Nodup :=
  ⟨(uhid_generation_and_uniqueness Db.empty entryAlice none none none none 0 0
      [patientRow1] patientRow1 "001").2.1 rfl rfl (by decide) (by decide),
   (uhid_generation_and_uniqueness ⟨[patientRow1], [], [], []⟩ entryAlice
      (some "UHID001") (some "Bob") none none 0 1 [] patientRow1 "").2.2.2.2.2.1
      "UHID001" rfl (by decide),
   (uhid_generation_and_uniqueness Db.empty entryAlice none none none none 0 0
      [] patientRow1 "").2.2.2.1 (by decide)⟩

/-! ## C2: one row per patient per visit date -/

/-- C2 (code bug, venkat.py:832-837): with one registered patient, two
identical treatment-form POSTs for visiting date 10 on a day whose
`date.today` is 20 both take the insert path — the constructor passes no
`visit_date`, so each inserted row carries the column default 20 — leaving
two treatment rows for `(UHID001, 20)` and none for the requested date 10.
The assessment and lab-report routes pass the visiting date and update in
place, as the claim states. -/
theorem treatment_form_default_visit_date_bug :
    (treatment_form true "UHID001" (some 10) 20 100 ⟨"d", "p", "m"⟩ none
        ⟨[patientRow1], [], [], []⟩).2 = .savedOk
    ∧ (treatment_form true "UHID001" (some 10) 20 101 ⟨"d", "p", "m"⟩ none
        (treatment_form true "UHID001" (some 10) 20 100 ⟨"d", "p", "m"⟩ none
          ⟨[patientRow1], [], [], []⟩).1).2 = .savedOk
    ∧ ((treatment_form true "UHID001" (some 10) 20 101 ⟨"d", "p", "m"⟩ none
        (treatment_form true "UHID001" (some 10) 20 100 ⟨"d", "p", "m"⟩ none
          ⟨[patientRow1], [], [], []⟩).1).1.treatments.map
            (fun t => (t.uhid, t.visit_date))
      = [("UHID001", 20), ("UHID001", 20)]) := by
  decide

/-! ## C8: rows are never deleted -/

/-- Survival of rows (by key `g`) from `l` into `l2`. -/
def idSurvives (g : α → Nat) (l l2 : List α) : Prop :=
  ∀ r ∈ l, ∃ r2 ∈ l2, g r2 = g r

/-- Every list survives into itself. -/
theorem idSurvives_refl (g : α → Nat) (l : List α) : idSurvives g l l :=
  fun r hr => ⟨r, hr, rfl⟩

/-- Appending preserves survival. -/
theorem idSurvives_append (g : α → Nat) (l l2 : List α) :
    idSurvives g l (l ++ l2) :=
  fun r hr => ⟨r, List.mem_append_left _ hr, rfl⟩

/-- An in-place update that keeps the key preserves survival. -/
theorem idSurvives_updateFirst (g : α → Nat) (p : α → Bool) (f : α → α)
    (l : List α) (hf : ∀ a, g (f a) = g a) :
    idSurvives g l (updateFirst p f l) := by
  induction l with
  | nil => exact fun r hr => absurd hr (List.not_mem_nil r)
  | cons x xs ih =>
    intro r hr
    unfold updateFirst
    by_cases hp : p x
    · rw [if_pos hp]
      rcases List.mem_cons.mp hr with rfl | hr2
      · exact ⟨f r, List.mem_cons_self _ _, hf r⟩
      · exact ⟨r, List.mem_cons_of_mem _ hr2, rfl⟩
    · rw [if_neg hp]
      rcases List.mem_cons.mp hr with rfl | hr2
      · exact ⟨r, List.mem_cons_self _ _, rfl⟩
      · obtain ⟨r2, hr2m, hr2g⟩ := ih r hr2
        exact ⟨r2, List.mem_cons_of_mem _ hr2m, hr2g⟩

/-- Survival is transitive. -/
theorem idSurvives_trans (g : α → Nat) (l1 l2 l3 : List α)
    (h12 : idSurvives g l1 l2) (h23 : idSurvives g l2 l3) :
    idSurvives g l1 l3 := by
  intro r hr
  obtain ⟨r2, hr2, hg2⟩ := h12 r hr
  obtain ⟨r3, hr3, hg3⟩ := h23 r2 hr2
  exact ⟨r3, hr3, hg3.trans hg2⟩

/-- `patient_entry` either leaves the table unchanged or appends a row. -/
theorem patient_entry_fst (f : EntryForm) (now : Nat) (db : Db) :
    (patient_entry f now db).1 = db
    ∨ ∃ row, (patient_entry f now db).1 = { db with patients := db.patients ++ [row] } := by
  unfold patient_entry
  rcases vitalsFlags f with - | flags
  · exact Or.inl rfl
  · simp only []
    split
    · exact Or.inl rfl
    · exact Or.inr ⟨_, rfl⟩

/-- `patient_registration` either leaves the table unchanged or appends a
row. -/
theorem patient_registration_fst (uhid name age gender : Option String)
    (now : Nat) (db : Db) :
    (patient_registration uhid name age gender now db).1 = db
    ∨ ∃ row, (patient_registration uhid name age gender now db).1
        = { db with patients := db.patients ++ [row] } := by
  unfold patient_registration
  rcases uhid with - | u
  · exact Or.inl rfl
  · simp only []
    split
    · exact Or.inl rfl
    · rcases name with - | n
      · exact Or.inl rfl
      · exact Or.inr ⟨_, rfl⟩

/-- The assessment POST leaves the tables unchanged, updates one assessment
row in place (keeping its id) or appends one. -/
theorem assessment_form_fst (li : Bool) (u : String) (v : Option Nat)
    (t now : Nat) (p : AssessPayload) (db : Db) :
    (assessment_form li u v t now p db).1 = db
    ∨ (∃ q g, (assessment_form li u v t now p db).1
        = { db with assessments := updateFirst q g db.assessments }
        ∧ ∀ a, (g a).id = a.id)
    ∨ ∃ row, (assessment_form li u v t now p db).1
        = { db with assessments := db.assessments ++ [row] } := by
  unfold assessment_form
  split
  · exact Or.inl rfl
  · split
    · exact Or.inl rfl
    · simp only []
      split
      · exact Or.inr (Or.inl ⟨_, _, rfl, fun a => rfl⟩)
      · exact Or.inr (Or.inr ⟨_, rfl⟩)

/-- The treatment POST leaves the tables unchanged, updates one treatment
row in place (keeping its id) or appends one. -/
theorem treatment_form_fst (li : Bool) (u : String) (v : Option Nat)
    (t now : Nat) (p : TreatPayload) (fl : Option String) (db : Db) :
    (treatment_form li u v t now p fl db).1 = db
    ∨ (∃ q g, (treatment_form li u v t now p fl db).1
        = { db with treatments := updateFirst q g db.treatments }
        ∧ ∀ a, (g a).id = a.id)
    ∨ ∃ row, (treatment_form li u v t now p fl db).1
        = { db with treatments := db.treatments ++ [row] } := by
  unfold treatment_form
  split
  · exact Or.inl rfl
  · split
    · exact Or.inl rfl
    · rcases fl with - | e
      · simp only []
        split
        · exact Or.inr (Or.inl ⟨_, _, rfl, fun a => rfl⟩)
        · exact Or.inr (Or.inr ⟨_, rfl⟩)
      · exact Or.inl rfl

/-- The lab-report POST leaves the tables unchanged, updates one lab-report
row in place (keeping its id) or appends one. -/
theorem lab_reports_form_fst (li : Bool) (u : String) (v : Option Nat)
    (t now : Nat) (p : LabPayload) (fl : Option String) (db : Db) :
    (lab_reports_form li u v t now p fl db).1 = db
    ∨ (∃ q g, (lab_reports_form li u v t now p fl db).1
        = { db with labReports := updateFirst q g db.labReports }
        ∧ ∀ a, (g a).id = a.id)
    ∨ ∃ row, (lab_reports_form li u v t now p fl db).1
        = { db with labReports := db.labReports ++ [row] } := by
  unfold lab_reports_form
  split
  · exact Or.inl rfl
  · split
    · exact Or.inl rfl
    · rcases fl with - | e
      · simp only []
        split
        · exact Or.inr (Or.inl ⟨_, _, rfl, fun a => rfl⟩)
        · exact Or.inr (Or.inr ⟨_, rfl⟩)
      · exact Or.inl rfl

/-- `save_prescription` leaves the tables unchanged or appends one
treatment row. -/
theorem save_prescription_fst (li : Bool) (u : String) (v : Option Nat)
    (now : Nat) (fl : Option String) (db : Db) :
    (save_prescription li u v now fl db).1 = db
    ∨ ∃ row, (save_prescription li u v now fl db).1
        = { db with treatments := db.treatments ++ [row] } := by
  unfold save_prescription
  split
  · exact Or.inl rfl
  · rcases v with - | d
    · exact Or.inl rfl
    · simp only []
      split
      · exact Or.inl rfl
      · rcases fl with - | e
        · simp only []
          split
          · exact Or.inl rfl
          · exact Or.inr ⟨_, rfl⟩
        · exact Or.inl rfl

/-- Each single request only inserts or mutates rows: every row of each of
the four tables survives, by id, into the successor state. -/
theorem step_preserves_rows (op : Op) (db : Db) :
    idSurvives (fun r => r.id) db.patients (step op db).patients
    ∧ idSurvives (fun r => r.id) db.assessments (step op db).assessments
    ∧ idSurvives (fun r => r.id) db.treatments (step op db).treatments
    ∧ idSurvives (fun r => r.id) db.labReports (step op db).labReports := by
  cases op with
  | entry f now =>
    rcases patient_entry_fst f now db with h | ⟨row, h⟩ <;>
      simp only [step, h] <;>
      exact ⟨by first | exact idSurvives_refl _ _ | exact idSurvives_append _ _ _,
        idSurvives_refl _ _, idSurvives_refl _ _, idSurvives_refl _ _⟩
  | registration u n a g now =>
    rcases patient_registration_fst u n a g now db with h | ⟨row, h⟩ <;>
      simp only [step, h] <;>
      exact ⟨by first | exact idSurvives_refl _ _ | exact idSurvives_append _ _ _,
        idSurvives_refl _ _, idSurvives_refl _ _, idSurvives_refl _ _⟩
  | assess li u v t now p =>
    rcases assessment_form_fst li u v t now p db with h | ⟨q, g, h, hg⟩ | ⟨row, h⟩ <;>
      simp only [step, h]
    · exact ⟨idSurvives_refl _ _, idSurvives_refl _ _, idSurvives_refl _ _,
        idSurvives_refl _ _⟩
    · exact ⟨idSurvives_refl _ _, idSurvives_updateFirst _ q g _ hg,
        idSurvives_refl _ _, idSurvives_refl _ _⟩
    · exact ⟨idSurvives_refl _ _, idSurvives_append _ _ _, idSurvives_refl _ _,
        idSurvives_refl _ _⟩
  | treat li u v t now p fl =>
    rcases treatment_form_fst li u v t now p fl db with h | ⟨q, g, h, hg⟩ | ⟨row, h⟩ <;>
      simp only [step, h]
    · exact ⟨idSurvives_refl _ _, idSurvives_refl _ _, idSurvives_refl _ _,
        idSurvives_refl _ _⟩
    · exact ⟨idSurvives_refl _ _, idSurvives_refl _ _,
        idSurvives_updateFirst _ q g _ hg, idSurvives_refl _ _⟩
    · exact ⟨idSurvives_refl _ _, idSurvives_refl _ _, idSurvives_append _ _ _,
        idSurvives_refl _ _⟩
  | lab li u v t now p fl =>
    rcases lab_reports_form_fst li u v t now p fl db with h | ⟨q, g, h, hg⟩ | ⟨row, h⟩ <;>
      simp only [step, h]
    · exact ⟨idSurvives_refl _ _, idSurvives_refl _ _, idSurvives_refl _ _,
        idSurvives_refl _ _⟩
    · exact ⟨idSurvives_refl _ _, idSurvives_refl _ _, idSurvives_refl _ _,
        idSurvives_updateFirst _ q g _ hg⟩
    · exact ⟨idSurvives_refl _ _, idSurvives_refl _ _, idSurvives_refl _ _,
        idSurvives_append _ _ _⟩
  | savePres li u v now fl =>
    rcases save_prescription_fst li u v now fl db with h | ⟨row, h⟩ <;>
      simp only [step, h]
    · exact ⟨idSurvives_refl _ _, idSurvives_refl _ _, idSurvives_refl _ _,
        idSurvives_refl _ _⟩
    · exact ⟨idSurvives_refl _ _, idSurvives_refl _ _, idSurvives_append _ _ _,
        idSurvives_refl _ _⟩

/-- C8: over every sequence of mutating requests of the web application,
Patient, Assessment, Treatment and LabReport rows are never deleted: every
row present before the sequence is still present (by id, possibly with
mutated payload fields) afterwards. -/
theorem rows_never_deleted (ops : List Op) (db : Db) :
    (∀ r ∈ db.patients, ∃ r2 ∈ (run ops db).patients, r2.id = r.id)
    ∧ (∀ r ∈ db.assessments, ∃ r2 ∈ (run ops db).assessments, r2.id = r.id)
    ∧ (∀ r ∈ db.treatments, ∃ r2 ∈ (run ops db).treatments, r2.id = r.id)
    ∧ (∀ r ∈ db.labReports, ∃ r2 ∈ (run ops db).labReports, r2.id = r.id) := by
  induction ops generalizing db with
  | nil =>
    exact ⟨idSurvives_refl _ _, idSurvives_refl _ _, idSurvives_refl _ _,
      idSurvives_refl _ _⟩
  | cons o ops ih =>
    have hrun : run (o :: ops) db = run ops (step o db) := rfl
    obtain ⟨h1, h2, h3, h4⟩ := step_preserves_rows o db
    obtain ⟨g1, g2, g3, g4⟩ := ih (step o db)
    rw [hrun]
    exact ⟨idSurvives_trans _ _ _ _ h1 g1, idSurvives_trans _ _ _ _ h2 g2,
      idSurvives_trans _ _ _ _ h3 g3, idSurvives_trans _ _ _ _ h4 g4⟩

/-- Witness for C8: the patient row survives a concrete sequence of one
entry, one assessment and one failing treatment save. -/
theorem rows_never_deleted_witness :
    ∃ r2 ∈ (run [.assess true "UHID001" (some 3) 5 7
          ⟨"", "", "", "", "", "", "", "", "", "", none, none, none, none⟩,
        .treat true "UHID001" (some 3) 5 8 ⟨"d", "p", "m"⟩ (some "boom")]
        ⟨[patientRow1], [], [], []⟩).patients,
      r2.id = patientRow1.id :=
  (rows_never_deleted
    [.assess true "UHID001" (some 3) 5 7
        ⟨"", "", "", "", "", "", "", "", "", "", none, none, none, none⟩,
      .treat true "UHID001" (some 3) 5 8 ⟨"d", "p", "m"⟩ (some "boom")]
    ⟨[patientRow1], [], [], []⟩).1 patientRow1 (by decide)

end Hospital
